import Mathlib

/-!
Shallow embedding of the TB6612FNG motor-driver test scripts of this
repository: `src/scripts/motor_test.py` (RPi.GPIO variant, free functions
over module-level pin constants and PWM handles) and
`src/scripts/motor_test_pigpio.py` (pigpio variant, class `MotorController`).

The embedding tracks the electrical state the scripts drive: the four
direction pins, the shared standby pin, and the two PWM duty-cycle values.
Pin levels are booleans; duty values are integers (the RPi.GPIO variant
passes a 0-100 percentage to `ChangeDutyCycle`, the pigpio variant passes a
0-255 value to `set_PWM_dutycycle`).  Pin levels are taken to start low and
duties at zero, the power-on default of the GPIO bank.

GPIO-library calls that can fail (`GPIO.setup`, `GPIO.PWM`, `pigpio` pin
operations) are modelled with a failure oracle `fail : Nat → Bool` indexed
by the position of the call in the initialization sequence; a failing call
has no effect and aborts the sequence, mirroring a raised exception that
the scripts propagate (`setup_gpio` re-raises; `MotorController.connect`
catches and returns `False`).  Python's `int(x)` truncation toward zero on
the nonnegative quotients involved is `Int.tdiv`.
-/

namespace MotorTest

/-- Pin assignments shared by both scripts (BCM numbering), `motor_test.py`
lines 43-53 and `motor_test_pigpio.py` lines 36-47. -/
def AIN1 : Nat := 24

def AIN2 : Nat := 23

def PWMA : Nat := 12

def BIN1 : Nat := 22

def BIN2 : Nat := 27

def PWMB : Nat := 13

def STBY : Nat := 16

def PWM_FREQUENCY : Nat := 1000

/-- Electrical state of the seven driver pins: levels of the four direction
pins and the standby pin, and the duty value last applied to each PWM
channel. -/
structure PinState where
  ain1 : Bool := false
  ain2 : Bool := false
  bin1 : Bool := false
  bin2 : Bool := false
  stby : Bool := false
  dutyA : Int := 0
  dutyB : Int := 0
deriving DecidableEq, Repr

/-- Power-on state: all pins low, both duties zero. -/
def initState : PinState := {}

/-- One GPIO-library call issued during initialization, as it appears in
the scripts' setup sequences.  `setupOut`/`setMode`/`pwmCreate`/`setFreq`
configure without driving a level; `write`, `pwmStart` and `setDuty` drive
a pin level or a duty value. -/
inductive Act
  | setupOut (pin : Nat)
  | pwmCreate (pin : Nat)
  | pwmStart (pin : Nat) (duty : Int)
  | setMode (pin : Nat)
  | setFreq (pin : Nat) (freq : Nat)
  | setDuty (pin : Nat) (duty : Int)
  | write (pin : Nat) (level : Bool)
deriving DecidableEq, Repr

/-- Effect of `GPIO.output pin level` / `pi.write pin level` on the tracked
state. -/
def writePin (s : PinState) (pin : Nat) (level : Bool) : PinState :=
  if pin = AIN1 then { s with ain1 := level }
  else if pin = AIN2 then { s with ain2 := level }
  else if pin = BIN1 then { s with bin1 := level }
  else if pin = BIN2 then { s with bin2 := level }
  else if pin = STBY then { s with stby := level }
  else s

/-- Effect of applying a duty value to a PWM pin. -/
def writeDuty (s : PinState) (pin : Nat) (duty : Int) : PinState :=
  if pin = PWMA then { s with dutyA := duty }
  else if pin = PWMB then { s with dutyB := duty }
  else s

/-- State effect of one initialization call. -/
def applyAct (s : PinState) : Act → PinState
  | .pwmStart pin duty => writeDuty s pin duty
  | .setDuty pin duty => writeDuty s pin duty
  | .write pin level => writePin s pin level
  | _ => s

/-- Run an initialization sequence under a failure oracle: call `i` fails
iff `fail i`; a failure has no effect and aborts the remaining calls
(the exception propagates).  Returns whether the whole sequence succeeded,
and the state reached. -/
def runProg (fail : Nat → Bool) : Nat → PinState → List Act → Bool × PinState
  | _, s, [] => (true, s)
  | i, s, a :: rest =>
    if fail i then (false, s)
    else runProg fail (i + 1) (applyAct s a) rest

/-- The call sequence of `setup_gpio` (`motor_test.py` lines 99-137): the
seven `GPIO.setup` calls in the dict's insertion order, the two `GPIO.PWM`
constructions, `pwm_a.start(0)`, `pwm_b.start(0)`, then
`GPIO.output(STBY, GPIO.HIGH)`. -/
def setup_gpio_prog : List Act :=
  [.setupOut AIN1, .setupOut AIN2, .setupOut PWMA,
   .setupOut BIN1, .setupOut BIN2, .setupOut PWMB, .setupOut STBY,
   .pwmCreate PWMA, .pwmCreate PWMB,
   .pwmStart PWMA 0, .pwmStart PWMB 0,
   .write STBY true]

/-- `setup_gpio` of `motor_test.py`: runs the setup sequence; on any
failure the handler stops whichever PWM handles exist (no tracked effect)
and re-raises, so the caller sees the error and the state stays as it was
at the failing call. -/
def setup_gpio (fail : Nat → Bool) : Bool × PinState :=
  runProg fail 0 initState setup_gpio_prog

/-- `motor_a_forward(pwm_a, speed)` (`motor_test.py` lines 191-200): warn
and clamp when `speed` is outside 0-100, then drive AIN1 high, AIN2 low,
and set PWM A's duty cycle to the (possibly clamped) speed.  The boolean
result records whether the out-of-range warning was printed. -/
def motor_a_forward (s : PinState) (speed : Int) : PinState × Bool :=
  let warned : Bool := decide (speed < 0 ∨ speed > 100)
  let speed := if speed < 0 ∨ speed > 100 then max 0 (min 100 speed) else speed
  ({ s with ain1 := true, ain2 := false, dutyA := speed }, warned)

/-- `motor_a_backward(pwm_a, speed)` (`motor_test.py` lines 202-211). -/
def motor_a_backward (s : PinState) (speed : Int) : PinState × Bool :=
  let warned : Bool := decide (speed < 0 ∨ speed > 100)
  let speed := if speed < 0 ∨ speed > 100 then max 0 (min 100 speed) else speed
  ({ s with ain1 := false, ain2 := true, dutyA := speed }, warned)

/-- `motor_a_stop(pwm_a)` (`motor_test.py` lines 213-218): both direction
pins low, duty cycle 0. -/
def motor_a_stop (s : PinState) : PinState :=
  { s with ain1 := false, ain2 := false, dutyA := 0 }

/-- `motor_b_forward(pwm_b, speed)` (`motor_test.py` lines 220-229). -/
def motor_b_forward (s : PinState) (speed : Int) : PinState × Bool :=
  let warned : Bool := decide (speed < 0 ∨ speed > 100)
  let speed := if speed < 0 ∨ speed > 100 then max 0 (min 100 speed) else speed
  ({ s with bin1 := true, bin2 := false, dutyB := speed }, warned)

/-- `motor_b_backward(pwm_b, speed)` (`motor_test.py` lines 231-240). -/
def motor_b_backward (s : PinState) (speed : Int) : PinState × Bool :=
  let warned : Bool := decide (speed < 0 ∨ speed > 100)
  let speed := if speed < 0 ∨ speed > 100 then max 0 (min 100 speed) else speed
  ({ s with bin1 := false, bin2 := true, dutyB := speed }, warned)

/-- `motor_b_stop(pwm_b)` (`motor_test.py` lines 242-247). -/
def motor_b_stop (s : PinState) : PinState :=
  { s with bin1 := false, bin2 := false, dutyB := 0 }

/-- `stop_all_motors(pwm_a, pwm_b)` (`motor_test.py` lines 249-254): stops
each motor whose PWM handle is present; `pa`/`pb` model handle presence. -/
def stop_all_motors (pa pb : Bool) (s : PinState) : PinState :=
  let s := if pa then motor_a_stop s else s
  if pb then motor_b_stop s else s

/-- `cleanup(pwm_a, pwm_b)` (`motor_test.py` lines 256-275): when both
handles are present, stop both motors; stop the PWM handles (no tracked
electrical effect); drive STBY low (its guard never fires in the model,
where writes succeed); `GPIO.cleanup()` releases the pins.  Every step is
guarded so the function never raises. -/
def cleanup (pa pb : Bool) (s : PinState) : PinState :=
  let s := if pa && pb then stop_all_motors pa pb s else s
  { s with stby := false }

/-- Abstract commands a caller can issue to the two motors; the payload is
the unchecked `speed` argument. -/
inductive Cmd
  | aForward (speed : Int)
  | aBackward (speed : Int)
  | aStop
  | bForward (speed : Int)
  | bBackward (speed : Int)
  | bStop
deriving DecidableEq, Repr

/-- Dispatch one command to the RPi.GPIO-variant functions (dropping the
warning flag). -/
def stepCmd (s : PinState) : Cmd → PinState
  | .aForward sp => (motor_a_forward s sp).1
  | .aBackward sp => (motor_a_backward s sp).1
  | .aStop => motor_a_stop s
  | .bForward sp => (motor_b_forward s sp).1
  | .bBackward sp => (motor_b_backward s sp).1
  | .bStop => motor_b_stop s

/-- Run a command sequence left to right. -/
def runCmds (s : PinState) (cs : List Cmd) : PinState :=
  cs.foldl stepCmd s

/-- The per-motor abstract state of the spec's state machine. -/
inductive MotorPhase
  | Forward
  | Backward
  | Stopped
deriving DecidableEq, Repr

/-- Spec-level transition of motor A's phase under one command; commands to
motor B leave it unchanged. -/
def cmdPhaseA (p : MotorPhase) : Cmd → MotorPhase
  | .aForward _ => .Forward
  | .aBackward _ => .Backward
  | .aStop => .Stopped
  | _ => p

/-- Spec-level transition of motor B's phase under one command. -/
def cmdPhaseB (p : MotorPhase) : Cmd → MotorPhase
  | .bForward _ => .Forward
  | .bBackward _ => .Backward
  | .bStop => .Stopped
  | _ => p

/-- Motor A's phase after a command sequence, starting from `Stopped`. -/
def phaseA (cs : List Cmd) : MotorPhase :=
  cs.foldl cmdPhaseA .Stopped

/-- Motor B's phase after a command sequence, starting from `Stopped`. -/
def phaseB (cs : List Cmd) : MotorPhase :=
  cs.foldl cmdPhaseB .Stopped

/-- The spec's electrical invariant for motor A at a given phase: moving
phases drive exactly one direction pin high; `Stopped` requires both pins
low and duty zero. -/
def motorAConforms (s : PinState) : MotorPhase → Bool
  | .Forward => s.ain1 && !s.ain2
  | .Backward => !s.ain1 && s.ain2
  | .Stopped => !s.ain1 && !s.ain2 && (s.dutyA == 0)

/-- The spec's electrical invariant for motor B at a given phase. -/
def motorBConforms (s : PinState) : MotorPhase → Bool
  | .Forward => s.bin1 && !s.bin2
  | .Backward => !s.bin1 && s.bin2
  | .Stopped => !s.bin1 && !s.bin2 && (s.dutyB == 0)

/-- State of the pigpio variant's `MotorController`: the `connected` flag
and the daemon-side pin state (`self.pi` handle existence coincides with a
`connect` attempt having been made; the tracked electrical state is what
matters). -/
structure MotorController where
  connected : Bool
  pins : PinState
deriving DecidableEq, Repr

/-- `MotorController.__init__` (`motor_test_pigpio.py` lines 50-52):
`self.pi = None`, `self.connected = False`; the daemon pins are at their
power-on defaults. -/
def MotorController.new : MotorController :=
  { connected := false, pins := initState }

/-- The call sequence of `setup_pins` (`motor_test_pigpio.py` lines
79-103): mode+low for each of AIN1, AIN2, BIN1, BIN2, STBY; modes and
frequency for the PWM pins; both duty cycles to 0; then STBY high. -/
def setup_pins_prog : List Act :=
  [.setMode AIN1, .write AIN1 false,
   .setMode AIN2, .write AIN2 false,
   .setMode BIN1, .write BIN1 false,
   .setMode BIN2, .write BIN2 false,
   .setMode STBY, .write STBY false,
   .setMode PWMA, .setMode PWMB,
   .setFreq PWMA PWM_FREQUENCY, .setFreq PWMB PWM_FREQUENCY,
   .setDuty PWMA 0, .setDuty PWMB 0,
   .write STBY true]

/-- `MotorController.connect` (`motor_test_pigpio.py` lines 54-77):
`daemonOk` models `pigpio.pi().connected`.  If the daemon is unreachable,
return `False` with the controller untouched.  Otherwise set
`self.connected = True` and run `setup_pins` under the failure oracle; an
exception there is caught and `False` returned — note the source does not
reset `self.connected` on that path. -/
def MotorController.connect (c : MotorController) (daemonOk : Bool)
    (fail : Nat → Bool) : Bool × MotorController :=
  if daemonOk = false then (false, c)
  else
    let c := { c with connected := true }
    let r := runProg fail 0 c.pins setup_pins_prog
    (r.1, { c with pins := r.2 })

/-- `MotorController.motor_a_forward` (`motor_test_pigpio.py` lines
105-116): silently returns when not connected; clamps the speed, converts
it to pigpio's 0-255 duty range with `int(speed * 255 / 100)`, drives AIN1
high, AIN2 low, and applies the converted duty. -/
def MotorController.motor_a_forward (c : MotorController) (speed : Int) :
    MotorController :=
  if c.connected = false then c
  else
    let speed := max 0 (min 100 speed)
    let duty_cycle := Int.tdiv (speed * 255) 100
    { c with pins :=
      { c.pins with ain1 := true, ain2 := false, dutyA := duty_cycle } }

/-- `MotorController.motor_a_backward` (`motor_test_pigpio.py` lines
118-129). -/
def MotorController.motor_a_backward (c : MotorController) (speed : Int) :
    MotorController :=
  if c.connected = false then c
  else
    let speed := max 0 (min 100 speed)
    let duty_cycle := Int.tdiv (speed * 255) 100
    { c with pins :=
      { c.pins with ain1 := false, ain2 := true, dutyA := duty_cycle } }

/-- `MotorController.motor_a_stop` (`motor_test_pigpio.py` lines 131-139). -/
def MotorController.motor_a_stop (c : MotorController) : MotorController :=
  if c.connected = false then c
  else
    { c with pins :=
      { c.pins with ain1 := false, ain2 := false, dutyA := 0 } }

/-- `MotorController.motor_b_forward` (`motor_test_pigpio.py` lines
141-152). -/
def MotorController.motor_b_forward (c : MotorController) (speed : Int) :
    MotorController :=
  if c.connected = false then c
  else
    let speed := max 0 (min 100 speed)
    let duty_cycle := Int.tdiv (speed * 255) 100
    { c with pins :=
      { c.pins with bin1 := true, bin2 := false, dutyB := duty_cycle } }

/-- `MotorController.motor_b_backward` (`motor_test_pigpio.py` lines
154-165). -/
def MotorController.motor_b_backward (c : MotorController) (speed : Int) :
    MotorController :=
  if c.connected = false then c
  else
    let speed := max 0 (min 100 speed)
    let duty_cycle := Int.tdiv (speed * 255) 100
    { c with pins :=
      { c.pins with bin1 := false, bin2 := true, dutyB := duty_cycle } }

/-- `MotorController.motor_b_stop` (`motor_test_pigpio.py` lines 167-175). -/
def MotorController.motor_b_stop (c : MotorController) : MotorController :=
  if c.connected = false then c
  else
    { c with pins :=
      { c.pins with bin1 := false, bin2 := false, dutyB := 0 } }

/-- `MotorController.stop_all` (`motor_test_pigpio.py` lines 177-180). -/
def MotorController.stop_all (c : MotorController) : MotorController :=
  c.motor_a_stop.motor_b_stop

/-- `MotorController.cleanup` (`motor_test_pigpio.py` lines 182-190): only
acts when `self.connected and self.pi`; stops both motors, drives STBY
low, closes the daemon handle, and clears `connected`. -/
def MotorController.cleanup (c : MotorController) : MotorController :=
  if c.connected then
    let c := c.stop_all
    { connected := false, pins := { c.pins with stby := false } }
  else c

/-- Dispatch one command to the pigpio-variant methods. -/
def MotorController.stepCmd (c : MotorController) : Cmd → MotorController
  | .aForward sp => c.motor_a_forward sp
  | .aBackward sp => c.motor_a_backward sp
  | .aStop => c.motor_a_stop
  | .bForward sp => c.motor_b_forward sp
  | .bBackward sp => c.motor_b_backward sp
  | .bStop => c.motor_b_stop

/-- Run a command sequence on the pigpio controller. -/
def MotorController.runCmds (c : MotorController) (cs : List Cmd) :
    MotorController :=
  cs.foldl MotorController.stepCmd c

/-- Controller state reached by a fully successful `connect` from a fresh
`MotorController`, used as the concrete post-initialization state in
scenario statements. -/
def postConnect : MotorController :=
  (MotorController.new.connect true (fun _ => false)).2

/-- A successful run of an initialization sequence applies every call. -/
theorem runProg_ok_eq (fail : Nat → Bool) :
    ∀ (prog : List Act) (i : Nat) (s : PinState),
      (runProg fail i s prog).1 = true →
      (runProg fail i s prog).2 = List.foldl applyAct s prog := by
  intro prog
  induction prog with
  | nil => intro i s _; rfl
  | cons a rest ih =>
    intro i s h
    by_cases hf : fail i = true
    · simp [runProg, hf] at h
    · have hf' : fail i = false := by simpa using hf
      simp only [runProg, hf', Bool.false_eq_true, if_false, List.foldl] at h ⊢
      exact ih (i + 1) (applyAct s a) h

/-- A failed run of an initialization sequence leaves the state of some
proper prefix of the sequence. -/
theorem runProg_error_eq (fail : Nat → Bool) :
    ∀ (prog : List Act) (i : Nat) (s : PinState),
      (runProg fail i s prog).1 = false →
      ∃ k, k < prog.length ∧
        (runProg fail i s prog).2 = List.foldl applyAct s (prog.take k) := by
  intro prog
  induction prog with
  | nil => intro i s h; simp [runProg] at h
  | cons a rest ih =>
    intro i s h
    by_cases hf : fail i = true
    · exact ⟨0, by simp, by simp [runProg, hf]⟩
    · have hf' : fail i = false := by simpa using hf
      simp only [runProg, hf', Bool.false_eq_true, if_false] at h ⊢
      obtain ⟨k, hk, hst⟩ := ih (i + 1) (applyAct s a) h
      exact ⟨k + 1, by simpa using Nat.succ_lt_succ hk,
        by simpa [List.foldl] using hst⟩

/-- No proper prefix of the RPi.GPIO setup sequence has raised standby. -/
theorem setup_gpio_take_stby :
    ∀ k, k < 12 →
      (List.foldl applyAct initState (setup_gpio_prog.take k)).stby = false := by
  decide

/-- No proper prefix of the pigpio setup sequence leaves standby high. -/
theorem setup_pins_take_stby :
    ∀ k, k < 17 →
      (List.foldl applyAct initState (setup_pins_prog.take k)).stby = false := by
  decide

/-- On success the RPi.GPIO setup leaves the state of the full sequence. -/
theorem setup_gpio_ok_state (fail : Nat → Bool)
    (h : (setup_gpio fail).1 = true) :
    (setup_gpio fail).2 = List.foldl applyAct initState setup_gpio_prog :=
  runProg_ok_eq fail setup_gpio_prog 0 initState h

/-- On success `connect` reports connected and leaves the state of the full
pigpio setup sequence. -/
theorem connect_ok_state (daemonOk : Bool) (fail : Nat → Bool)
    (h : (MotorController.new.connect daemonOk fail).1 = true) :
    (MotorController.new.connect daemonOk fail).2.connected = true ∧
    (MotorController.new.connect daemonOk fail).2.pins
      = List.foldl applyAct initState setup_pins_prog := by
  cases daemonOk with
  | false => simp [MotorController.connect] at h
  | true =>
    have h' : (runProg fail 0 initState setup_pins_prog).1 = true := by
      simpa [MotorController.connect, MotorController.new] using h
    refine ⟨by simp [MotorController.connect, MotorController.new], ?_⟩
    have := runProg_ok_eq fail setup_pins_prog 0 initState h'
    simpa [MotorController.connect, MotorController.new] using this

/-- One RPi.GPIO-variant command moves each motor's pins in lockstep with
the spec-level phase transition. -/
theorem stepCmd_conforms (s : PinState) (cmd : Cmd) (pa pb : MotorPhase)
    (ha : motorAConforms s pa = true) (hb : motorBConforms s pb = true) :
    motorAConforms (stepCmd s cmd) (cmdPhaseA pa cmd) = true ∧
    motorBConforms (stepCmd s cmd) (cmdPhaseB pb cmd) = true := by
  cases cmd <;> cases pa <;> cases pb <;>
    simp_all [stepCmd, cmdPhaseA, cmdPhaseB, motorAConforms, motorBConforms,
      motor_a_forward, motor_a_backward, motor_a_stop,
      motor_b_forward, motor_b_backward, motor_b_stop]

/-- A command sequence preserves phase conformance (RPi.GPIO variant). -/
theorem runCmds_conforms :
    ∀ (cs : List Cmd) (s : PinState) (pa pb : MotorPhase),
      motorAConforms s pa = true → motorBConforms s pb = true →
      motorAConforms (runCmds s cs) (List.foldl cmdPhaseA pa cs) = true ∧
      motorBConforms (runCmds s cs) (List.foldl cmdPhaseB pb cs) = true := by
  intro cs
  induction cs with
  | nil => intro s pa pb ha hb; exact ⟨ha, hb⟩
  | cons c rest ih =>
    intro s pa pb ha hb
    have h := stepCmd_conforms s c pa pb ha hb
    have h2 := ih (stepCmd s c) (cmdPhaseA pa c) (cmdPhaseB pb c) h.1 h.2
    simpa [runCmds] using h2

/-- Pigpio commands never change the `connected` flag. -/
theorem MC_stepCmd_connected (c : MotorController) (cmd : Cmd) :
    (c.stepCmd cmd).connected = c.connected := by
  cases cmd <;> cases hC : c.connected <;>
    simp [MotorController.stepCmd, MotorController.motor_a_forward,
      MotorController.motor_a_backward, MotorController.motor_a_stop,
      MotorController.motor_b_forward, MotorController.motor_b_backward,
      MotorController.motor_b_stop, hC]

/-- One pigpio-variant command moves each motor's pins in lockstep with the
spec-level phase transition, when the controller is connected. -/
theorem MC_stepCmd_conforms (c : MotorController) (cmd : Cmd)
    (pa pb : MotorPhase) (hc : c.connected = true)
    (ha : motorAConforms c.pins pa = true)
    (hb : motorBConforms c.pins pb = true) :
    motorAConforms (c.stepCmd cmd).pins (cmdPhaseA pa cmd) = true ∧
    motorBConforms (c.stepCmd cmd).pins (cmdPhaseB pb cmd) = true := by
  cases cmd <;> cases pa <;> cases pb <;>
    simp_all [MotorController.stepCmd, MotorController.motor_a_forward,
      MotorController.motor_a_backward, MotorController.motor_a_stop,
      MotorController.motor_b_forward, MotorController.motor_b_backward,
      MotorController.motor_b_stop, cmdPhaseA, cmdPhaseB,
      motorAConforms, motorBConforms]

/-- A command sequence on a connected pigpio controller preserves the flag
and phase conformance. -/
theorem MC_runCmds_conforms :
    ∀ (cs : List Cmd) (c : MotorController) (pa pb : MotorPhase),
      c.connected = true →
      motorAConforms c.pins pa = true → motorBConforms c.pins pb = true →
      (c.runCmds cs).connected = true ∧
      motorAConforms (c.runCmds cs).pins (List.foldl cmdPhaseA pa cs) = true ∧
      motorBConforms (c.runCmds cs).pins (List.foldl cmdPhaseB pb cs) = true := by
  intro cs
  induction cs with
  | nil => intro c pa pb hc ha hb; exact ⟨hc, ha, hb⟩
  | cons cm rest ih =>
    intro c pa pb hc ha hb
    have hcon : (c.stepCmd cm).connected = true := by
      rw [MC_stepCmd_connected]; exact hc
    have h := MC_stepCmd_conforms c cm pa pb hc ha hb
    have h2 := ih (c.stepCmd cm) (cmdPhaseA pa cm) (cmdPhaseB pb cm)
      hcon h.1 h.2
    simpa [MotorController.runCmds] using h2

/-- Pigpio commands leave the `connected` flag of a controller unchanged
across a whole command sequence. -/
theorem MC_runCmds_connected :
    ∀ (cs : List Cmd) (c : MotorController),
      (c.runCmds cs).connected = c.connected := by
  intro cs
  induction cs with
  | nil => intro c; rfl
  | cons cm rest ih =>
    intro c
    have h := ih (c.stepCmd cm)
    simpa [MotorController.runCmds, MC_stepCmd_connected] using h

/-- Pigpio `cleanup` on a connected controller clears the flag and forces
every tracked pin and duty to the power-on values. -/
theorem MC_cleanup_of_connected (c : MotorController)
    (hc : c.connected = true) :
    c.cleanup = { connected := false, pins := initState } := by
  simp [MotorController.cleanup, MotorController.stop_all,
    MotorController.motor_a_stop, MotorController.motor_b_stop, hc, initState]

/-- Claim C1: from the state after a successful initialization, every
sequence of forward/backward/stop commands keeps each motor's electrical
state in lockstep with the spec's per-motor state machine: in phase
Forward or Backward exactly one of the motor's direction pins is high and
the other low, in phase Stopped both are low and the PWM duty is zero; and
the initial phase is Stopped.  Stated for both script variants. -/
theorem motor_state_invariant :
    (phaseA [] = MotorPhase.Stopped ∧ phaseB [] = MotorPhase.Stopped) ∧
    (∀ (fail : Nat → Bool) (cs : List Cmd),
      (setup_gpio fail).1 = true →
      motorAConforms (runCmds (setup_gpio fail).2 cs) (phaseA cs) = true ∧
      motorBConforms (runCmds (setup_gpio fail).2 cs) (phaseB cs) = true) ∧
    (∀ (daemonOk : Bool) (fail : Nat → Bool) (cs : List Cmd),
      (MotorController.new.connect daemonOk fail).1 = true →
      motorAConforms
        ((MotorController.new.connect daemonOk fail).2.runCmds cs).pins
        (phaseA cs) = true ∧
      motorBConforms
        ((MotorController.new.connect daemonOk fail).2.runCmds cs).pins
        (phaseB cs) = true) := by
  refine ⟨⟨rfl, rfl⟩, ?_, ?_⟩
  · intro fail cs h
    rw [setup_gpio_ok_state fail h]
    have h2 := runCmds_conforms cs
      (List.foldl applyAct initState setup_gpio_prog)
      MotorPhase.Stopped MotorPhase.Stopped (by decide) (by decide)
    simpa [phaseA, phaseB] using h2
  · intro daemonOk fail cs h
    obtain ⟨hc, hp⟩ := connect_ok_state daemonOk fail h
    have ha : motorAConforms (MotorController.new.connect daemonOk fail).2.pins
        MotorPhase.Stopped = true := by rw [hp]; decide
    have hb : motorBConforms (MotorController.new.connect daemonOk fail).2.pins
        MotorPhase.Stopped = true := by rw [hp]; decide
    have h2 := MC_runCmds_conforms cs
      (MotorController.new.connect daemonOk fail).2
      MotorPhase.Stopped MotorPhase.Stopped hc ha hb
    simpa [phaseA, phaseB] using h2.2

/-- Witness for C1 at a concrete command sequence against both variants. -/
theorem motor_state_invariant_witness :
    motorAConforms
      (runCmds (setup_gpio (fun _ => false)).2 [Cmd.aForward 30, Cmd.bBackward 40])
      (phaseA [Cmd.aForward 30, Cmd.bBackward 40]) = true ∧
    motorAConforms
      ((MotorController.new.connect true (fun _ => false)).2.runCmds
        [Cmd.aForward 30, Cmd.aStop]).pins
      (phaseA [Cmd.aForward 30, Cmd.aStop]) = true :=
  ⟨(motor_state_invariant.2.1 (fun _ => false)
      [Cmd.aForward 30, Cmd.bBackward 40] (by decide)).1,
   (motor_state_invariant.2.2 true (fun _ => false)
      [Cmd.aForward 30, Cmd.aStop] (by decide)).1⟩

/-- Claim C2 counterexample: in the pigpio variant, `forward(150)` applies
255 to the PWM channel — the clamped speed converted to the 0-255 duty
range — which is not a value in [0,100]; and the pigpio variant clamps
silently, with no warning path in its source.  The claim as stated is
therefore false for that variant. -/
theorem speed_clamp_raw_duty_cx :
    (postConnect.motor_a_forward 150).pins.dutyA = 255 ∧
    ¬ ((postConnect.motor_a_forward 150).pins.dutyA ≤ 100) := by
  decide

/-- Claim C2 (amended): for every integer speed outside [0,100] the
applied duty is determined solely by the clamped speed and never by the
raw value: the RPi.GPIO variant applies `max 0 (min 100 speed)`, a value
in [0,100] different from the raw speed, and prints the out-of-range
warning; the pigpio variant applies the clamped speed converted to its
0-255 duty range.  Both variants return normally (the functions are
total), so out-of-range input never fails. -/
theorem speed_clamp_characterization (speed : Int)
    (h : speed < 0 ∨ speed > 100) :
    (0 ≤ max 0 (min 100 speed) ∧ max 0 (min 100 speed) ≤ 100 ∧
      max 0 (min 100 speed) ≠ speed) ∧
    (0 ≤ Int.tdiv (max 0 (min 100 speed) * 255) 100 ∧
      Int.tdiv (max 0 (min 100 speed) * 255) 100 ≤ 255) ∧
    (∀ s : PinState,
      (motor_a_forward s speed).1.dutyA = max 0 (min 100 speed) ∧
      (motor_a_forward s speed).2 = true ∧
      (motor_a_backward s speed).1.dutyA = max 0 (min 100 speed) ∧
      (motor_a_backward s speed).2 = true ∧
      (motor_b_forward s speed).1.dutyB = max 0 (min 100 speed) ∧
      (motor_b_forward s speed).2 = true ∧
      (motor_b_backward s speed).1.dutyB = max 0 (min 100 speed) ∧
      (motor_b_backward s speed).2 = true) ∧
    (∀ c : MotorController, c.connected = true →
      (c.motor_a_forward speed).pins.dutyA
        = Int.tdiv (max 0 (min 100 speed) * 255) 100 ∧
      (c.motor_a_backward speed).pins.dutyA
        = Int.tdiv (max 0 (min 100 speed) * 255) 100 ∧
      (c.motor_b_forward speed).pins.dutyB
        = Int.tdiv (max 0 (min 100 speed) * 255) 100 ∧
      (c.motor_b_backward speed).pins.dutyB
        = Int.tdiv (max 0 (min 100 speed) * 255) 100) := by
  refine ⟨by omega, ⟨?_, ?_⟩, ?_, ?_⟩
  · rw [Int.tdiv_eq_ediv (by omega) (by omega)]; omega
  · rw [Int.tdiv_eq_ediv (by omega) (by omega)]; omega
  · intro s
    simp [motor_a_forward, motor_a_backward, motor_b_forward,
      motor_b_backward, h]
  · intro c hc
    simp [MotorController.motor_a_forward, MotorController.motor_a_backward,
      MotorController.motor_b_forward, MotorController.motor_b_backward, hc]

/-- Witness for C2 at speed 150 against both variants. -/
theorem speed_clamp_characterization_witness :
    (motor_a_forward initState 150).1.dutyA = max 0 (min 100 150) ∧
    (motor_a_forward initState 150).2 = true ∧
    (postConnect.motor_a_forward 150).pins.dutyA
      = Int.tdiv (max 0 (min 100 150) * 255) 100 :=
  ⟨((speed_clamp_characterization 150 (by decide)).2.2.1 initState).1,
   ((speed_clamp_characterization 150 (by decide)).2.2.1 initState).2.1,
   ((speed_clamp_characterization 150 (by decide)).2.2.2 postConnect rfl).1⟩

/-- Claim C3 counterexample: in the pigpio variant `forward(30)` applies a
duty of 76 (`int(30 * 255 / 100)`), not 30: the duty cycle does not equal
the requested speed in that variant. -/
theorem forward_duty_equals_speed_cx :
    (postConnect.motor_a_forward 30).pins.dutyA = 76 ∧
    ¬ ((postConnect.motor_a_forward 30).pins.dutyA = 30) := by
  decide

/-- Claim C3 (amended): for speed s in [0,100], `forward(s)` drives the
forward pin high and the backward pin low, and `backward(s)` the reverse;
the applied duty equals s in the RPi.GPIO variant, and equals
`int(s * 255 / 100)` — s scaled to the 0-255 pigpio range, rounded down —
in the pigpio variant. -/
theorem forward_backward_effect (speed : Int) (h0 : 0 ≤ speed)
    (h1 : speed ≤ 100) :
    (∀ s : PinState,
      (motor_a_forward s speed).1.ain1 = true ∧
      (motor_a_forward s speed).1.ain2 = false ∧
      (motor_a_forward s speed).1.dutyA = speed ∧
      (motor_a_backward s speed).1.ain1 = false ∧
      (motor_a_backward s speed).1.ain2 = true ∧
      (motor_a_backward s speed).1.dutyA = speed ∧
      (motor_b_forward s speed).1.bin1 = true ∧
      (motor_b_forward s speed).1.bin2 = false ∧
      (motor_b_forward s speed).1.dutyB = speed ∧
      (motor_b_backward s speed).1.bin1 = false ∧
      (motor_b_backward s speed).1.bin2 = true ∧
      (motor_b_backward s speed).1.dutyB = speed) ∧
    (∀ c : MotorController, c.connected = true →
      (c.motor_a_forward speed).pins.ain1 = true ∧
      (c.motor_a_forward speed).pins.ain2 = false ∧
      (c.motor_a_forward speed).pins.dutyA = Int.tdiv (speed * 255) 100 ∧
      (c.motor_a_backward speed).pins.ain1 = false ∧
      (c.motor_a_backward speed).pins.ain2 = true ∧
      (c.motor_a_backward speed).pins.dutyA = Int.tdiv (speed * 255) 100 ∧
      (c.motor_b_forward speed).pins.bin1 = true ∧
      (c.motor_b_forward speed).pins.bin2 = false ∧
      (c.motor_b_forward speed).pins.dutyB = Int.tdiv (speed * 255) 100 ∧
      (c.motor_b_backward speed).pins.bin1 = false ∧
      (c.motor_b_backward speed).pins.bin2 = true ∧
      (c.motor_b_backward speed).pins.dutyB = Int.tdiv (speed * 255) 100) := by
  have hn : ¬ (speed < 0 ∨ speed > 100) := by omega
  have hm : max 0 (min 100 speed) = speed := by omega
  constructor
  · intro s
    simp [motor_a_forward, motor_a_backward, motor_b_forward,
      motor_b_backward, hn]
  · intro c hc
    simp [MotorController.motor_a_forward, MotorController.motor_a_backward,
      MotorController.motor_b_forward, MotorController.motor_b_backward,
      hc, hm]

/-- Witness for C3 at the spec's scenario speed 30. -/
theorem forward_backward_effect_witness :
    (motor_a_forward initState 30).1.ain1 = true ∧
    (motor_a_forward initState 30).1.dutyA = 30 ∧
    (postConnect.motor_a_forward 30).pins.dutyA = Int.tdiv (30 * 255) 100 :=
  ⟨((forward_backward_effect 30 (by decide) (by decide)).1 initState).1,
   ((forward_backward_effect 30 (by decide) (by decide)).1 initState).2.2.1,
   ((forward_backward_effect 30 (by decide) (by decide)).2 postConnect
      rfl).2.2.1⟩

/-- Claim C4: after `stop()` the motor's duty is exactly 0 and both its
direction pins are low — from any prior state, hence after any sequence of
forward/backward/stop calls — and `stop()` is idempotent.  Stated for both
variants; the pigpio pin facts are under the connected flag, which holds
throughout normal operation. -/
theorem stop_zeroes_and_idempotent :
    (∀ s : PinState,
      (motor_a_stop s).ain1 = false ∧ (motor_a_stop s).ain2 = false ∧
      (motor_a_stop s).dutyA = 0 ∧
      motor_a_stop (motor_a_stop s) = motor_a_stop s ∧
      (motor_b_stop s).bin1 = false ∧ (motor_b_stop s).bin2 = false ∧
      (motor_b_stop s).dutyB = 0 ∧
      motor_b_stop (motor_b_stop s) = motor_b_stop s) ∧
    (∀ c : MotorController,
      c.motor_a_stop.motor_a_stop = c.motor_a_stop ∧
      c.motor_b_stop.motor_b_stop = c.motor_b_stop) ∧
    (∀ c : MotorController, c.connected = true →
      c.motor_a_stop.pins.ain1 = false ∧ c.motor_a_stop.pins.ain2 = false ∧
      c.motor_a_stop.pins.dutyA = 0 ∧
      c.motor_b_stop.pins.bin1 = false ∧ c.motor_b_stop.pins.bin2 = false ∧
      c.motor_b_stop.pins.dutyB = 0) := by
  refine ⟨fun s => ?_, fun c => ?_, fun c hc => ?_⟩
  · simp [motor_a_stop, motor_b_stop]
  · cases hC : c.connected <;>
      simp [MotorController.motor_a_stop, MotorController.motor_b_stop, hC]
  · simp [MotorController.motor_a_stop, MotorController.motor_b_stop, hc]

/-- Witness for C4 on the connected pigpio controller. -/
theorem stop_zeroes_and_idempotent_witness :
    postConnect.motor_a_stop.pins.dutyA = 0 ∧
    postConnect.motor_b_stop.pins.dutyB = 0 :=
  ⟨(stop_zeroes_and_idempotent.2.2 postConnect rfl).2.2.1,
   (stop_zeroes_and_idempotent.2.2 postConnect rfl).2.2.2.2.2⟩

/-- Claim C5: if any pin-configuration or PWM-creation call during
initialization fails, the error is surfaced to the caller (`setup_gpio`
re-raises, modelled by the `false` success flag; `connect` returns
`False`) and the standby pin is still low, so the driver is never left
enabled by a failed initialization. -/
theorem init_failure_leaves_standby_low :
    (∀ fail : Nat → Bool, (setup_gpio fail).1 = false →
      (setup_gpio fail).2.stby = false) ∧
    (∀ (daemonOk : Bool) (fail : Nat → Bool),
      (MotorController.new.connect daemonOk fail).1 = false →
      (MotorController.new.connect daemonOk fail).2.pins.stby = false) := by
  constructor
  · intro fail h
    obtain ⟨k, hk, hst⟩ := runProg_error_eq fail setup_gpio_prog 0 initState h
    have hk' : k < 12 := by simpa [setup_gpio_prog] using hk
    rw [show (setup_gpio fail).2 = (runProg fail 0 initState setup_gpio_prog).2
      from rfl, hst]
    exact setup_gpio_take_stby k hk'
  · intro daemonOk fail h
    cases daemonOk with
    | false =>
      simp [MotorController.connect, MotorController.new, initState]
    | true =>
      have h' : (runProg fail 0 initState setup_pins_prog).1 = false := by
        simpa [MotorController.connect, MotorController.new] using h
      obtain ⟨k, hk, hst⟩ :=
        runProg_error_eq fail setup_pins_prog 0 initState h'
      have hk' : k < 17 := by simpa [setup_pins_prog] using hk
      have hpins : (MotorController.new.connect true fail).2.pins
          = (runProg fail 0 initState setup_pins_prog).2 := by
        simp [MotorController.connect, MotorController.new]
      rw [hpins, hst]
      exact setup_pins_take_stby k hk'

/-- Witness for C5: a failure at the fourth RPi setup call and at the first
pigpio setup call both leave standby low. -/
theorem init_failure_leaves_standby_low_witness :
    (setup_gpio (fun i => i == 3)).2.stby = false ∧
    (MotorController.new.connect true (fun i => i == 0)).2.pins.stby = false :=
  ⟨init_failure_leaves_standby_low.1 (fun i => i == 3) (by decide),
   init_failure_leaves_standby_low.2 true (fun i => i == 0) (by decide)⟩

/-- Claim C6: in both initialization sequences the two PWM channels are
brought to duty 0 strictly before the standby pin is raised — both as an
ordering of the call sequences and semantically: every prefix of either
sequence that has standby high already has both duties at 0, and a fully
successful run ends with standby high and both duties 0. -/
theorem pwm_started_before_standby :
    (Act.pwmStart PWMA 0 ∈ setup_gpio_prog ∧
      Act.pwmStart PWMB 0 ∈ setup_gpio_prog ∧
      setup_gpio_prog.indexOf (Act.pwmStart PWMA 0)
        < setup_gpio_prog.indexOf (Act.write STBY true) ∧
      setup_gpio_prog.indexOf (Act.pwmStart PWMB 0)
        < setup_gpio_prog.indexOf (Act.write STBY true)) ∧
    (Act.setDuty PWMA 0 ∈ setup_pins_prog ∧
      Act.setDuty PWMB 0 ∈ setup_pins_prog ∧
      setup_pins_prog.indexOf (Act.setDuty PWMA 0)
        < setup_pins_prog.indexOf (Act.write STBY true) ∧
      setup_pins_prog.indexOf (Act.setDuty PWMB 0)
        < setup_pins_prog.indexOf (Act.write STBY true)) ∧
    (∀ k, k < 13 →
      (List.foldl applyAct initState (setup_gpio_prog.take k)).stby = true →
      (List.foldl applyAct initState (setup_gpio_prog.take k)).dutyA = 0 ∧
      (List.foldl applyAct initState (setup_gpio_prog.take k)).dutyB = 0) ∧
    (∀ k, k < 18 →
      (List.foldl applyAct initState (setup_pins_prog.take k)).stby = true →
      (List.foldl applyAct initState (setup_pins_prog.take k)).dutyA = 0 ∧
      (List.foldl applyAct initState (setup_pins_prog.take k)).dutyB = 0) ∧
    (∀ fail : Nat → Bool, (setup_gpio fail).1 = true →
      (setup_gpio fail).2.stby = true ∧ (setup_gpio fail).2.dutyA = 0 ∧
      (setup_gpio fail).2.dutyB = 0) ∧
    (∀ (daemonOk : Bool) (fail : Nat → Bool),
      (MotorController.new.connect daemonOk fail).1 = true →
      (MotorController.new.connect daemonOk fail).2.pins.stby = true ∧
      (MotorController.new.connect daemonOk fail).2.pins.dutyA = 0 ∧
      (MotorController.new.connect daemonOk fail).2.pins.dutyB = 0) := by
  refine ⟨by decide, by decide, by decide, by decide, ?_, ?_⟩
  · intro fail h
    rw [setup_gpio_ok_state fail h]
    decide
  · intro daemonOk fail h
    rw [(connect_ok_state daemonOk fail h).2]
    decide

/-- Witness for C6 on fully successful runs of both variants. -/
theorem pwm_started_before_standby_witness :
    ((setup_gpio (fun _ => false)).2.stby = true ∧
      (setup_gpio (fun _ => false)).2.dutyA = 0 ∧
      (setup_gpio (fun _ => false)).2.dutyB = 0) ∧
    (MotorController.new.connect true (fun _ => false)).2.pins.stby = true :=
  ⟨pwm_started_before_standby.2.2.2.2.1 (fun _ => false) (by decide),
   (pwm_started_before_standby.2.2.2.2.2 true (fun _ => false) (by decide)).1⟩

/-- Claim C7: initialization followed by any command sequence and then
shutdown leaves standby low, both duties 0, and all four direction pins
low — in the model, exactly the power-on state `initState` (and for the
pigpio variant the `connected` flag cleared). -/
theorem shutdown_after_init_stops_all :
    (∀ (fail : Nat → Bool) (cs : List Cmd),
      (setup_gpio fail).1 = true →
      cleanup true true (runCmds (setup_gpio fail).2 cs) = initState) ∧
    (∀ (daemonOk : Bool) (fail : Nat → Bool) (cs : List Cmd),
      (MotorController.new.connect daemonOk fail).1 = true →
      ((MotorController.new.connect daemonOk fail).2.runCmds cs).cleanup
        = { connected := false, pins := initState }) := by
  constructor
  · intro fail cs _
    rfl
  · intro daemonOk fail cs h
    have hc : ((MotorController.new.connect daemonOk fail).2.runCmds
        cs).connected = true := by
      rw [MC_runCmds_connected]
      exact (connect_ok_state daemonOk fail h).1
    exact MC_cleanup_of_connected _ hc

/-- Witness for C7 with a concrete command sequence in between. -/
theorem shutdown_after_init_stops_all_witness :
    cleanup true true
      (runCmds (setup_gpio (fun _ => false)).2 [Cmd.aForward 30, Cmd.bBackward 40])
      = initState ∧
    ((MotorController.new.connect true (fun _ => false)).2.runCmds
      [Cmd.aForward 30, Cmd.bBackward 40]).cleanup
      = { connected := false, pins := initState } :=
  ⟨shutdown_after_init_stops_all.1 (fun _ => false)
      [Cmd.aForward 30, Cmd.bBackward 40] (by decide),
   shutdown_after_init_stops_all.2 true (fun _ => false)
      [Cmd.aForward 30, Cmd.bBackward 40] (by decide)⟩

/-- Claim C8: shutting down twice leaves exactly the state of shutting
down once, from any state and for any combination of present/absent PWM
handles (partial initialization); both `cleanup` functions are total, so
the second call raises nothing. -/
theorem shutdown_idempotent :
    (∀ (pa pb : Bool) (s : PinState),
      cleanup pa pb (cleanup pa pb s) = cleanup pa pb s) ∧
    (∀ c : MotorController, c.cleanup.cleanup = c.cleanup) := by
  constructor
  · intro pa pb s
    cases pa <;> cases pb <;> rfl
  · intro c
    cases hC : c.connected with
    | false => simp [MotorController.cleanup, hC]
    | true =>
      rw [MC_cleanup_of_connected c hC]
      simp [MotorController.cleanup]

/-- Claim C9: commands to one motor do not touch the other motor's
direction pins or duty, nor the standby pin — for every prior state, both
variants, all six commands. -/
theorem motor_command_frame :
    (∀ (s : PinState) (speed : Int),
      (motor_a_forward s speed).1.bin1 = s.bin1 ∧
      (motor_a_forward s speed).1.bin2 = s.bin2 ∧
      (motor_a_forward s speed).1.dutyB = s.dutyB ∧
      (motor_a_forward s speed).1.stby = s.stby ∧
      (motor_a_backward s speed).1.bin1 = s.bin1 ∧
      (motor_a_backward s speed).1.bin2 = s.bin2 ∧
      (motor_a_backward s speed).1.dutyB = s.dutyB ∧
      (motor_a_backward s speed).1.stby = s.stby ∧
      (motor_a_stop s).bin1 = s.bin1 ∧
      (motor_a_stop s).bin2 = s.bin2 ∧
      (motor_a_stop s).dutyB = s.dutyB ∧
      (motor_a_stop s).stby = s.stby ∧
      (motor_b_forward s speed).1.ain1 = s.ain1 ∧
      (motor_b_forward s speed).1.ain2 = s.ain2 ∧
      (motor_b_forward s speed).1.dutyA = s.dutyA ∧
      (motor_b_forward s speed).1.stby = s.stby ∧
      (motor_b_backward s speed).1.ain1 = s.ain1 ∧
      (motor_b_backward s speed).1.ain2 = s.ain2 ∧
      (motor_b_backward s speed).1.dutyA = s.dutyA ∧
      (motor_b_backward s speed).1.stby = s.stby ∧
      (motor_b_stop s).ain1 = s.ain1 ∧
      (motor_b_stop s).ain2 = s.ain2 ∧
      (motor_b_stop s).dutyA = s.dutyA ∧
      (motor_b_stop s).stby = s.stby) ∧
    (∀ (c : MotorController) (speed : Int),
      (c.motor_a_forward speed).pins.bin1 = c.pins.bin1 ∧
      (c.motor_a_forward speed).pins.bin2 = c.pins.bin2 ∧
      (c.motor_a_forward speed).pins.dutyB = c.pins.dutyB ∧
      (c.motor_a_forward speed).pins.stby = c.pins.stby ∧
      (c.motor_a_backward speed).pins.bin1 = c.pins.bin1 ∧
      (c.motor_a_backward speed).pins.bin2 = c.pins.bin2 ∧
      (c.motor_a_backward speed).pins.dutyB = c.pins.dutyB ∧
      (c.motor_a_backward speed).pins.stby = c.pins.stby ∧
      c.motor_a_stop.pins.bin1 = c.pins.bin1 ∧
      c.motor_a_stop.pins.bin2 = c.pins.bin2 ∧
      c.motor_a_stop.pins.dutyB = c.pins.dutyB ∧
      c.motor_a_stop.pins.stby = c.pins.stby ∧
      (c.motor_b_forward speed).pins.ain1 = c.pins.ain1 ∧
      (c.motor_b_forward speed).pins.ain2 = c.pins.ain2 ∧
      (c.motor_b_forward speed).pins.dutyA = c.pins.dutyA ∧
      (c.motor_b_forward speed).pins.stby = c.pins.stby ∧
      (c.motor_b_backward speed).pins.ain1 = c.pins.ain1 ∧
      (c.motor_b_backward speed).pins.ain2 = c.pins.ain2 ∧
      (c.motor_b_backward speed).pins.dutyA = c.pins.dutyA ∧
      (c.motor_b_backward speed).pins.stby = c.pins.stby ∧
      c.motor_b_stop.pins.ain1 = c.pins.ain1 ∧
      c.motor_b_stop.pins.ain2 = c.pins.ain2 ∧
      c.motor_b_stop.pins.dutyA = c.pins.dutyA ∧
      c.motor_b_stop.pins.stby = c.pins.stby) := by
  constructor
  · intro s speed
    simp [motor_a_forward, motor_a_backward, motor_a_stop,
      motor_b_forward, motor_b_backward, motor_b_stop]
  · intro c speed
    cases hC : c.connected <;>
      simp [MotorController.motor_a_forward, MotorController.motor_a_backward,
        MotorController.motor_a_stop, MotorController.motor_b_forward,
        MotorController.motor_b_backward, MotorController.motor_b_stop, hC]

/-- Claim C10 counterexample: a `connect()` that reaches the daemon but
whose first pin-setup call fails returns `False` — no successful connect
has occurred — yet it leaves `connected = True`, so a subsequent
`motor_a_forward(50)` is not a no-op: it drives AIN1 high (which was low).
The claim's "any motor command invoked before a successful connect() is a
silent no-op that writes no pin" is therefore false on this path. -/
theorem connected_guard_cx :
    (MotorController.new.connect true (fun i => i == 0)).1 = false ∧
    (MotorController.new.connect true (fun i => i == 0)).2.pins.ain1
      = false ∧
    ((MotorController.new.connect true (fun i => i == 0)).2.motor_a_forward
      50).pins.ain1 = true := by
  decide

/-- Claim C10 (amended): every motor command acts only when the
`connected` flag is true and is the identity otherwise; `__init__` starts
the flag false, a `connect()` that fails to reach the daemon leaves it
false, and `cleanup()` always leaves it false — so commands issued before
any daemon connection or after cleanup are silent no-ops.  (A `connect()`
that reached the daemon but failed during pin setup leaves the flag true,
the behaviour exhibited by the counterexample.) -/
theorem connected_guard :
    MotorController.new.connected = false ∧
    (∀ fail : Nat → Bool,
      (MotorController.new.connect false fail).2.connected = false) ∧
    (∀ c : MotorController, c.cleanup.connected = false) ∧
    (∀ (c : MotorController) (speed : Int), c.connected = false →
      c.motor_a_forward speed = c ∧ c.motor_a_backward speed = c ∧
      c.motor_a_stop = c ∧ c.motor_b_forward speed = c ∧
      c.motor_b_backward speed = c ∧ c.motor_b_stop = c) := by
  refine ⟨rfl, fun fail => rfl, fun c => ?_, fun c speed hc => ?_⟩
  · cases hC : c.connected with
    | false => simp [MotorController.cleanup, hC]
    | true => simp [MC_cleanup_of_connected c hC]
  · simp [MotorController.motor_a_forward, MotorController.motor_a_backward,
      MotorController.motor_a_stop, MotorController.motor_b_forward,
      MotorController.motor_b_backward, MotorController.motor_b_stop, hc]

/-- Witness for C10 on a fresh, never-connected controller. -/
theorem connected_guard_witness :
    MotorController.new.motor_a_forward 50 = MotorController.new ∧
    MotorController.new.motor_b_stop = MotorController.new :=
  ⟨(connected_guard.2.2.2 MotorController.new 50 rfl).1,
   (connected_guard.2.2.2 MotorController.new 50 rfl).2.2.2.2.2⟩

end MotorTest
